import Mathlib

/-!
Shallow embedding of `backend/main.py` from the ai-english-speaking-partner
repository: a FastAPI backend with a single `/chat` endpoint, an in-memory
per-session history bounded to 20 entries by `manage_history`, a module-level
model-selection bootstrap, and tolerant extraction of JSON from the provider
response.  The external model provider (`model.generate_content`) is modelled
as an oracle function passed as a parameter, and `uuid.uuid4()` as a
`freshId` parameter.  Python `json.loads` is modelled by an executable
recursive-descent parser over the JSON subset the program exchanges
(null / bool / integer / string / array / object, with last-wins duplicate
keys as in Python dicts).
-/

namespace EnglishPartner

/-- JSON values as produced by Python `json.loads`. -/
inductive Json : Type where
  | null : Json
  | bool (b : Bool) : Json
  | num (n : Int) : Json
  | str (s : String) : Json
  | arr (elems : List Json) : Json
  | obj (members : List (String × Json)) : Json

/-- JSON whitespace accepted between tokens by `json.loads`. -/
def jsonWs (c : Char) : Bool :=
  c = ' ' || c = '\t' || c = '\n' || c = '\r'

/-- Skip leading JSON whitespace. -/
def skipWs : List Char → List Char
  | [] => []
  | c :: cs => if jsonWs c then skipWs cs else c :: cs

/-- Decode a JSON string escape character. -/
def escChar (c : Char) : Option Char :=
  if c = '"' then some '"'
  else if c = '\\' then some '\\'
  else if c = '/' then some '/'
  else if c = 'n' then some '\n'
  else if c = 't' then some '\t'
  else if c = 'r' then some '\r'
  else if c = 'b' then some '\x08'
  else if c = 'f' then some '\x0c'
  else none

/-- Parse the body of a JSON string literal (after the opening quote). -/
def parseStringBody : List Char → Except String (String × List Char)
  | [] => .error "Unterminated string"
  | c :: cs =>
    if c = '"' then .ok ("", cs)
    else if c = '\\' then
      match cs with
      | [] => .error "Unterminated string"
      | e :: cs2 =>
        match escChar e with
        | some d => (parseStringBody cs2).map (fun r => (String.singleton d ++ r.1, r.2))
        | none => .error "Invalid escape"
    else (parseStringBody cs).map (fun r => (String.singleton c ++ r.1, r.2))

/-- Take a maximal run of decimal digits. -/
def takeDigits : List Char → (List Char × List Char)
  | [] => ([], [])
  | c :: cs =>
    if c.isDigit then
      let r := takeDigits cs
      (c :: r.1, r.2)
    else ([], c :: cs)

/-- Numeric value of a digit run. -/
def digitsToNat (ds : List Char) : Nat :=
  ds.foldl (fun a c => a * 10 + (c.toNat - 48)) 0

mutual

/-- Parse one JSON value; `fuel` bounds nesting (always sufficient at
`2 * length + 2` since every nesting level consumes a character). -/
def parseVal : Nat → List Char → Except String (Json × List Char)
  | 0, _ => .error "Too deeply nested"
  | f + 1, cs =>
    match skipWs cs with
    | 'n' :: 'u' :: 'l' :: 'l' :: rest => .ok (Json.null, rest)
    | 't' :: 'r' :: 'u' :: 'e' :: rest => .ok (Json.bool true, rest)
    | 'f' :: 'a' :: 'l' :: 's' :: 'e' :: rest => .ok (Json.bool false, rest)
    | '"' :: rest => (parseStringBody rest).map (fun r => (Json.str r.1, r.2))
    | '[' :: rest => (parseElems f rest).map (fun r => (Json.arr r.1, r.2))
    | '\x7b' :: rest => (parseMembers f rest).map (fun r => (Json.obj r.1, r.2))
    | '-' :: rest =>
      match takeDigits rest with
      | ([], _) => .error "Expecting value"
      | (ds, rest2) => .ok (Json.num (-(digitsToNat ds : Int)), rest2)
    | c :: rest =>
      if c.isDigit then
        match takeDigits (c :: rest) with
        | (ds, rest2) => .ok (Json.num (digitsToNat ds), rest2)
      else .error "Expecting value"
    | [] => .error "Expecting value"

/-- Parse array elements (after the opening bracket). -/
def parseElems : Nat → List Char → Except String (List Json × List Char)
  | 0, _ => .error "Too deeply nested"
  | f + 1, cs =>
    match skipWs cs with
    | ']' :: rest => .ok ([], rest)
    | cs2 =>
      match parseVal f cs2 with
      | .error e => .error e
      | .ok (v, r) =>
        match skipWs r with
        | ',' :: r2 =>
          match parseElems f r2 with
          | .error e => .error e
          | .ok (vs, r3) => .ok (v :: vs, r3)
        | ']' :: r2 => .ok ([v], r2)
        | _ => .error "Expecting comma"

/-- Parse object members (after the opening brace). -/
def parseMembers : Nat → List Char → Except String (List (String × Json) × List Char)
  | 0, _ => .error "Too deeply nested"
  | f + 1, cs =>
    match skipWs cs with
    | '\x7d' :: rest => .ok ([], rest)
    | '"' :: rest =>
      match parseStringBody rest with
      | .error e => .error e
      | .ok (k, r) =>
        match skipWs r with
        | ':' :: r2 =>
          match parseVal f r2 with
          | .error e => .error e
          | .ok (v, r3) =>
            match skipWs r3 with
            | ',' :: r4 =>
              match parseMembers f r4 with
              | .error e => .error e
              | .ok (ms, r5) => .ok ((k, v) :: ms, r5)
            | '\x7d' :: r4 => .ok ([(k, v)], r4)
            | _ => .error "Expecting comma"
        | _ => .error "Expecting colon"
    | _ => .error "Expecting property name"

end

/-- Model of Python `json.loads`: parse a complete JSON document, rejecting
trailing garbage. -/
def jsonLoads (s : String) : Except String Json :=
  match parseVal (2 * s.data.length + 2) s.data with
  | .error e => .error e
  | .ok (v, rest) => if (skipWs rest).isEmpty then .ok v else .error "Extra data"

/-- Model of Python `dict.get` on a dict built by `json.loads`: with duplicate
keys the last occurrence wins. -/
def pyDictGet (kvs : List (String × Json)) (k : String) : Option Json :=
  (kvs.reverse.find? (fun kv => kv.1 == k)).map (fun kv => kv.2)

/-- Characters stripped by Python `str.strip()` (the ASCII whitespace set). -/
def pyWsChar (c : Char) : Bool :=
  c = ' ' || c = '\t' || c = '\n' || c = '\r' || c = '\x0b' || c = '\x0c'

/-- Model of Python `str.strip()`. -/
def pyStrip (s : String) : String :=
  String.mk (((s.data.dropWhile pyWsChar).reverse.dropWhile pyWsChar).reverse)

/-- Model of the Python substring test `needle in hay`. -/
def containsSub (hay needle : String) : Bool :=
  decide (needle.data <:+: hay.data)

/-- Model of Python `str.upper()` (ASCII case mapping). -/
def pyUpper (s : String) : String := String.mk (s.data.map Char.toUpper)

/-- Model of Python `str.lower()` (ASCII case mapping). -/
def pyLower (s : String) : String := String.mk (s.data.map Char.toLower)

/-- Split on every occurrence of a non-empty separator, leftmost first and
non-overlapping, as Python `str.split(sep)` does; the fuel argument only
bounds the recursion and is always sufficient at `length + 1`. -/
def pySplitGo (sep : List Char) : Nat → List Char → List (List Char)
  | _, [] => [[]]
  | 0, l => [l]
  | f + 1, c :: cs =>
    if sep.isPrefixOf (c :: cs) then
      [] :: pySplitGo sep f ((c :: cs).drop sep.length)
    else
      match pySplitGo sep f cs with
      | [] => [[c]]
      | h :: t => (c :: h) :: t

/-- Model of Python `s.split(sep)` for a non-empty separator. -/
def pySplitOn (s sep : String) : List String :=
  (pySplitGo sep.data (s.data.length + 1) s.data).map String.mk

/-- Model of Python `s.split(sep)[-1]`: the text after the last occurrence of
`sep` (the whole string when `sep` does not occur). -/
def afterLastSep (sep s : String) : String :=
  (pySplitOn s sep).getLastD ""

/-- Model of Python `s.split(sep)[0]`: the text before the first occurrence of
`sep` (the whole string when `sep` does not occur). -/
def beforeFirstSep (sep s : String) : String :=
  (pySplitOn s sep).headD ""

/-- The fenced-code extraction of `chat_endpoint`:
strip the text, and if a json fence marker occurs take what follows the last
marker up to the next fence, else do the same with a plain triple-backtick
fence, mirroring `text.split("```json")[-1].split("```")[0].strip()`. -/
def extractText (raw : String) : String :=
  let text := pyStrip raw
  if containsSub text "```json" then
    pyStrip (beforeFirstSep "```" (afterLastSep "```json" text))
  else if containsSub text "```" then
    pyStrip (beforeFirstSep "```" (afterLastSep "```" text))
  else text

/-- Model of the Python expression `a or b` for optional strings: `None` and
the empty string are falsy. -/
def pyOrStr (v : Option String) (d : String) : String :=
  match v with
  | none => d
  | some s => if s = "" then d else s

mutual

/-- Model of Python `repr` on values produced by `json.loads`. -/
def pyRepr : Json → String
  | .null => "None"
  | .bool true => "True"
  | .bool false => "False"
  | .num n => toString n
  | .str s => "\x27" ++ s ++ "\x27"
  | .arr xs => "[" ++ String.intercalate ", " (pyReprList xs) ++ "]"
  | .obj ms => "\x7b" ++ String.intercalate ", " (pyReprMembers ms) ++ "\x7d"

/-- Representations of the elements of a list value. -/
def pyReprList : List Json → List String
  | [] => []
  | x :: xs => pyRepr x :: pyReprList xs

/-- Representations of the members of a dict value. -/
def pyReprMembers : List (String × Json) → List String
  | [] => []
  | (k, v) :: ms => ("\x27" ++ k ++ "\x27: " ++ pyRepr v) :: pyReprMembers ms

end

/-- Model of Python `str()` as applied by the f-string that renders a stored
part into the prompt. -/
def pyToStr : Json → String
  | .null => "None"
  | .bool true => "True"
  | .bool false => "False"
  | .num n => toString n
  | .str s => s
  | .arr xs => pyRepr (.arr xs)
  | .obj ms => pyRepr (.obj ms)

/-- One stored message: the Python dict
`(role, parts)` with `parts` a one-element list; its single part starts out
as a Python string but, like in the source, can hold whatever `dict.get`
returned for `ai_reply`. -/
structure Msg where
  role : String
  text : Json

/-- The request body of `POST /chat` (`ChatRequest` in the source). -/
structure ChatRequest where
  user_message : String
  mode : Option String := some "chat"
  session_id : Option String := none
deriving DecidableEq

/-- The response body of `POST /chat` (`ChatResponse` in the source). -/
structure ChatResponse where
  ai_reply : String
  grammar_correction : Option String := none
  session_id : String
deriving DecidableEq

/-- The in-memory `conversations` dict, total with default `[]` (the source
inserts `[]` on first touch of a session id). -/
def Store : Type := String → List Msg

/-- The store at process start. -/
def emptyStore : Store := fun _ => []

/-- Faithful translation of `manage_history`: append, then keep only the last
20 messages when the list exceeds 20. -/
def manage_history (hist : List Msg) (newMessage : Msg) : List Msg :=
  let h := hist ++ [newMessage]
  if h.length > 20 then h.drop (h.length - 20) else h

/-- `manage_history` acting on the `conversations` store at one session id. -/
def manageHistoryStore (conv : Store) (sid : String) (m : Msg) : Store :=
  fun k => if k = sid then manage_history (conv sid) m else conv k

/-- The `CHAT_PROMPT` template from the source. -/
def CHAT_PROMPT : String :=
  "\nYou are a warm, supportive, and casual AI English conversation partner.\nSpeak like a friendly human, not a teacher. Encourage confidence and free expression.\nUse simple, natural English. Keep responses conversational and engaging.\nAsk follow-up questions to keep the chat flowing.\nDo NOT correct grammar unless the user explicitly asks.\nAvoid long explanations or lectures.\nDo not evaluate or score the user. Do not act as a tutor or interviewer.\nDo not mention being an AI or a language model.\n\nOutput your response in JSON format with two keys:\n1. \"ai_reply\": Your conversational response. Keep it natural, somewhat concise (1-3 sentences), and supportive.\n2. \"grammar_correction\": Return null unless the user asks for correction.\n"

/-- The `INTERVIEW_PROMPT` template from the source. -/
def INTERVIEW_PROMPT : String :=
  "\nYou are an expert AI Job Interviewer. Your goal is to conduct a highly dynamic, realistic, and adaptive mock interview.\n\nDYNAMIC FLOW RULES:\n1. START: If the user\x27s target job role is unknown, your first question MUST be to ask what position they are interviewing for.\n2. ADAPT: Do NOT use fixed questions. Generate questions based on the user\x27s target role, their previous answers, and the natural flow of a professional conversation.\n3. DEPTH: Ask follow-up questions if an answer is vague or interesting. Challenge the user like a real interviewer would.\n4. ONE AT A TIME: Ask ONLY one question at a time. Wait for the user\x27s response.\n5. LENGTH: Aim for a focused interview of about 5-8 questions. If you feel the interview has reached a natural conclusion, provide the FINAL EVALUATION.\n\nFEEDBACK MECHANISM (After every user answer):\nYou MUST provide constructive feedback in the \"grammar_correction\" field using this EXACT format:\n📝 Feedback: [Concise feedback on their answer\x27s content and delivery]\n⭐ Score: [X] / 10\n💡 Improvement Tip: [One specific actionable suggestion]\n\nRESPONSE STRUCTURE:\nThe \"ai_reply\" field should contain ONLY your next interview question or follow-up.\n\nFINAL EVALUATION:\nWhen the interview is complete (or the user wants to stop):\n- \"ai_reply\" should contain a comprehensive summary:\n  - Overall Performance Summary\n  - Key Strengths & Areas for Improvement\n  - Final Interview Score\n  - 3 Actionable Tips for the real interview\n- \"grammar_correction\" can be null for the final evaluation.\n\nOutput your response in JSON format with two keys:\n1. \"ai_reply\": Your next question or the final evaluation.\n2. \"grammar_correction\": The mandatory feedback/score/tip for the last answer (except for the start/end where it might be null).\n\nConstraints:\n- Maintain a professional, fair, and slightly challenging tone.\n- Do not mention you are an AI. Stay in character as the interviewer.\n"

/-- Prompt selection: `INTERVIEW_PROMPT if mode == "interview" else CHAT_PROMPT`. -/
def selectPrompt (mode : String) : String :=
  if mode = "interview" then INTERVIEW_PROMPT else CHAT_PROMPT

/-- Rendering of one stored message into the conversation context:
`f"\x7bmsg['role'].upper()\x7d: \x7bmsg['parts'][0]\x7d"`. -/
def renderTurn (m : Msg) : String :=
  pyUpper m.role ++ ": " ++ pyToStr m.text

/-- The full prompt assembled by `chat_endpoint`. -/
def buildPrompt (mode : String) (history : List Msg) : String :=
  selectPrompt mode ++ "\n\nConversation History:\n" ++
    String.intercalate "\n" (history.map renderTurn) ++
    "\n\nRespond ONLY in valid JSON format."

/-- The `gen_config` dict: request the JSON mime type exactly when the
selected model name contains "gemini" (lower-cased check). -/
def gen_config (targetModelName : String) : List (String × String) :=
  if containsSub (pyLower targetModelName) "gemini" then
    [("response_mime_type", "application/json")]
  else []

/-- Default used when the parsed object has no `ai_reply` key. -/
def defaultAiReply : String := "I\x27m sorry, I didn\x27t catch that."

/-- Reply text produced by the `except` branch of `chat_endpoint`. -/
def errorReplyText (e : String) : String :=
  "I\x27m having trouble connecting to my brain right now. Error details: " ++ e

/-- Python type names, used to model the `AttributeError` message raised by
`data.get` when `json.loads` returned a non-dict. -/
def pyTypeName : Json → String
  | .null => "NoneType"
  | .bool _ => "bool"
  | .num _ => "int"
  | .str _ => "str"
  | .arr _ => "list"
  | .obj _ => "dict"

/-- The `(ai_reply, grammar_correction)` pair computed from the provider text:
fence extraction, `json.loads`, then `dict.get` with defaults; parse failures
and `data.get` on a non-dict raise, landing in the `except` branch. -/
def readProviderText (raw : String) : Json × Json :=
  match jsonLoads (extractText raw) with
  | .error e => (Json.str (errorReplyText e), Json.null)
  | .ok (Json.obj kvs) =>
    ((pyDictGet kvs "ai_reply").getD (Json.str defaultAiReply),
     (pyDictGet kvs "grammar_correction").getD Json.null)
  | .ok v =>
    (Json.str (errorReplyText ("\x27" ++ pyTypeName v ++ "\x27 object has no attribute \x27get\x27")),
     Json.null)

/-- The provider branch of `chat_endpoint`: build the prompt, call the
generate oracle, and read its response; an oracle error is the caught
provider exception. -/
def providerReply (gen : String → List (String × String) → Except String String)
    (targetModelName mode : String) (history : List Msg) : Json × Json :=
  match gen (buildPrompt mode history) (gen_config targetModelName) with
  | .error e => (Json.str (errorReplyText e), Json.null)
  | .ok raw => readProviderText raw

/-- The mock branch of `chat_endpoint`, used when `model` is unset. -/
def mockReply (mode userText : String) : Json × Json :=
  (Json.str ("[" ++ pyUpper mode ++ " MODE] I heard you say: \x27" ++ userText ++ "\x27. (MockAI Mode)"),
   if mode = "interview" then Json.str "Mock feedback: Good effort!" else Json.null)

/-- Everything `chat_endpoint` computes before building the response object:
the updated store, the resolved session id, and the two reply fields. -/
structure CoreOut where
  store : Store
  sid : String
  aiReply : Json
  gc : Json

/-- The body of `chat_endpoint` up to (but not including) the `ChatResponse`
construction: resolve session id and mode, record the user turn, compute the
reply pair in the provider or mock branch, record the model turn. -/
def chatCore (gen : String → List (String × String) → Except String String)
    (freshId : String) (modelSet : Bool) (targetModelName : String)
    (conv : Store) (req : ChatRequest) : CoreOut :=
  let sid := pyOrStr req.session_id freshId
  let mode := pyOrStr req.mode "chat"
  let conv1 := manageHistoryStore conv sid ⟨"user", Json.str req.user_message⟩
  let pair :=
    if modelSet then providerReply gen targetModelName mode (conv1 sid)
    else mockReply mode req.user_message
  let conv2 := manageHistoryStore conv1 sid ⟨"model", pair.1⟩
  ⟨conv2, sid, pair.1, pair.2⟩

/-- Pydantic validation of the `ai_reply : str` field. -/
def validateAiReply : Json → Option String
  | Json.str s => some s
  | _ => none

/-- Pydantic validation of the `grammar_correction : Optional[str]` field. -/
def validateGc : Json → Option (Option String)
  | Json.null => some none
  | Json.str s => some (some s)
  | _ => none

/-- The `/chat` endpoint: run the handler body, then build the `ChatResponse`;
a field that fails pydantic validation raises out of the handler, modelled as
`Except.error` (an HTTP 500), while `Except.ok` is an HTTP 200 response. -/
def chat_endpoint (gen : String → List (String × String) → Except String String)
    (freshId : String) (modelSet : Bool) (targetModelName : String)
    (conv : Store) (req : ChatRequest) : Store × Except String ChatResponse :=
  let o := chatCore gen freshId modelSet targetModelName conv req
  match validateAiReply o.aiReply, validateGc o.gc with
  | some a, some g => (o.store, Except.ok ⟨a, g, o.sid⟩)
  | _, _ => (o.store, Except.error "ValidationError")

/-- The hardcoded `priority_models` list from the bootstrap. -/
def priority_models : List String :=
  ["models/gemma-3-27b-it", "models/gemma-3-12b-it", "models/gemma-3-4b-it",
   "models/gemini-2.0-flash", "models/gemini-flash-latest"]

/-- The fallback test `'gemma' in m and '-it' in m`. -/
def gemmaItFallback (m : String) : Bool :=
  containsSub m "gemma" && containsSub m "-it"

/-- The model-selection bootstrap on an enumerated model list: first available
priority candidate, else first instruction-tuned gemma, else the first
enumerated model, else the hardcoded default. -/
def selectTargetModel (available : List String) : String :=
  match priority_models.find? (fun p => available.contains p) with
  | some t => t
  | none =>
    match available.find? gemmaItFallback with
    | some t => t
    | none =>
      match available with
      | [] => "models/gemini-1.5-flash"
      | a :: _ => a

/-- The whole bootstrap `try` block as a function of the enumeration outcome:
an exception while listing models leaves the provider handle `model = None`
for the process lifetime. -/
def bootstrapModel (listModels : Except String (List String)) : Option String :=
  match listModels with
  | .error _ => none
  | .ok ms => some (selectTargetModel ms)

/-- One request to the server: the caller-provided body plus the environment
of that call (the provider oracle and the uuid that would be drawn). -/
structure Step where
  gen : String → List (String × String) → Except String String
  freshId : String
  req : ChatRequest

/-- Run a sequence of `/chat` requests, threading the real store, and beside
it an untruncated ghost log of every turn appended, for stating the history
invariant. -/
def runChatsLog (modelSet : Bool) (targetModelName : String) :
    List Step → Store → Store → Store × Store
  | [], st, lg => (st, lg)
  | s :: rest, st, lg =>
    let o := chatCore s.gen s.freshId modelSet targetModelName st s.req
    runChatsLog modelSet targetModelName rest o.store
      (fun k =>
        if k = o.sid then
          lg k ++ [⟨"user", Json.str s.req.user_message⟩, ⟨"model", o.aiReply⟩]
        else lg k)

/-- The last `n` elements of a list (what Python `l[-n:]` keeps). -/
def lastN (n : Nat) (l : List α) : List α := l.drop (l.length - n)

/-! ## Helper lemmas -/

theorem lastN_length_le (n : Nat) (l : List α) : (lastN n l).length ≤ n := by
  simp only [lastN, List.length_drop]
  omega

theorem manage_history_eq_lastN (h : List Msg) (m : Msg) :
    manage_history h m = lastN 20 (h ++ [m]) := by
  simp only [manage_history, lastN]
  split
  · rfl
  · have : (h ++ [m]).length - 20 = 0 := by
      simp only [List.length_append, List.length_singleton] at *
      omega
    rw [this, List.drop_zero]

theorem lastN_append_left (l r : List α) :
    lastN 20 (lastN 20 l ++ r) = lastN 20 (l ++ r) := by
  have hk : l.length - 20 ≤ l.length := Nat.sub_le _ _
  simp only [lastN]
  rw [← List.drop_append_of_le_length hk, List.length_drop, List.drop_drop]
  congr 1
  simp only [List.length_append]
  omega

theorem manage_history_length_le (h : List Msg) (m : Msg) :
    (manage_history h m).length ≤ 20 := by
  rw [manage_history_eq_lastN]
  exact lastN_length_le _ _

theorem manage_history_getLast (h : List Msg) (m : Msg) :
    (manage_history h m).getLast? = some m := by
  rw [manage_history_eq_lastN]
  have hk : (h ++ [m]).length - 20 ≤ h.length := by
    simp only [List.length_append, List.length_singleton]
    omega
  simp only [lastN]
  rw [List.drop_append_of_le_length hk]
  exact List.getLast?_concat _

theorem foldl_manage_history_eq_lastN (msgs : List Msg) :
    List.foldl manage_history [] msgs = lastN 20 msgs := by
  induction msgs using List.reverseRecOn with
  | nil => rfl
  | append_singleton ms m ih =>
    rw [List.foldl_append]
    simp only [List.foldl_cons, List.foldl_nil]
    rw [ih, manage_history_eq_lastN, lastN_append_left]

theorem manageHistoryStore_same (conv : Store) (sid : String) (m : Msg) :
    manageHistoryStore conv sid m sid = manage_history (conv sid) m := by
  simp [manageHistoryStore]

theorem manageHistoryStore_other (conv : Store) (sid : String) (m : Msg)
    (k : String) (hk : k ≠ sid) : manageHistoryStore conv sid m k = conv k := by
  simp [manageHistoryStore, hk]

theorem chatCore_store (gen : String → List (String × String) → Except String String)
    (freshId : String) (modelSet : Bool) (targetModelName : String)
    (conv : Store) (req : ChatRequest) :
    (chatCore gen freshId modelSet targetModelName conv req).store =
      manageHistoryStore
        (manageHistoryStore conv (chatCore gen freshId modelSet targetModelName conv req).sid
          ⟨"user", Json.str req.user_message⟩)
        (chatCore gen freshId modelSet targetModelName conv req).sid
        ⟨"model", (chatCore gen freshId modelSet targetModelName conv req).aiReply⟩ := rfl

theorem chatCore_sid (gen : String → List (String × String) → Except String String)
    (freshId : String) (modelSet : Bool) (targetModelName : String)
    (conv : Store) (req : ChatRequest) :
    (chatCore gen freshId modelSet targetModelName conv req).sid =
      pyOrStr req.session_id freshId := rfl

theorem runChatsLog_invariant (modelSet : Bool) (targetModelName : String)
    (steps : List Step) (st lg : Store)
    (hinv : ∀ k, st k = lastN 20 (lg k)) :
    ∀ k, (runChatsLog modelSet targetModelName steps st lg).1 k =
      lastN 20 ((runChatsLog modelSet targetModelName steps st lg).2 k) := by
  induction steps generalizing st lg with
  | nil => exact hinv
  | cons s rest ih =>
    simp only [runChatsLog]
    apply ih
    intro k
    rw [chatCore_store]
    by_cases hk : k = (chatCore s.gen s.freshId modelSet targetModelName st s.req).sid
    · subst hk
      rw [manageHistoryStore_same, manageHistoryStore_same, if_pos rfl]
      rw [hinv, manage_history_eq_lastN, manage_history_eq_lastN, lastN_append_left,
        List.append_assoc, lastN_append_left]
      rfl
    · rw [manageHistoryStore_other _ _ _ _ hk, manageHistoryStore_other _ _ _ _ hk,
        if_neg hk]
      exact hinv k

theorem chatCore_pair_provider (gen : String → List (String × String) → Except String String)
    (freshId targetModelName : String) (conv : Store) (req : ChatRequest) :
    ((chatCore gen freshId true targetModelName conv req).aiReply,
     (chatCore gen freshId true targetModelName conv req).gc) =
      providerReply gen targetModelName (pyOrStr req.mode "chat")
        (manageHistoryStore conv (pyOrStr req.session_id freshId)
          ⟨"user", Json.str req.user_message⟩ (pyOrStr req.session_id freshId)) := rfl

theorem chatCore_pair_mock (gen : String → List (String × String) → Except String String)
    (freshId targetModelName : String) (conv : Store) (req : ChatRequest) :
    ((chatCore gen freshId false targetModelName conv req).aiReply,
     (chatCore gen freshId false targetModelName conv req).gc) =
      mockReply (pyOrStr req.mode "chat") req.user_message := rfl

theorem providerReply_of_gen_error (gen : String → List (String × String) → Except String String)
    (targetModelName mode : String) (history : List Msg) (e : String)
    (h : ∀ p c, gen p c = Except.error e) :
    providerReply gen targetModelName mode history =
      (Json.str (errorReplyText e), Json.null) := by
  unfold providerReply
  rw [h]

theorem providerReply_of_gen_ok (gen : String → List (String × String) → Except String String)
    (targetModelName mode : String) (history : List Msg) (raw : String)
    (h : ∀ p c, gen p c = Except.ok raw) :
    providerReply gen targetModelName mode history = readProviderText raw := by
  unfold providerReply
  rw [h]

theorem readProviderText_of_parse_error (raw e : String)
    (h : jsonLoads (extractText raw) = Except.error e) :
    readProviderText raw = (Json.str (errorReplyText e), Json.null) := by
  unfold readProviderText
  rw [h]

theorem readProviderText_of_obj (raw : String) (kvs : List (String × Json))
    (h : jsonLoads (extractText raw) = Except.ok (Json.obj kvs)) :
    readProviderText raw =
      ((pyDictGet kvs "ai_reply").getD (Json.str defaultAiReply),
       (pyDictGet kvs "grammar_correction").getD Json.null) := by
  unfold readProviderText
  rw [h]

theorem validateAiReply_eq_some (j : Json) (a : String) :
    validateAiReply j = some a ↔ j = Json.str a := by
  cases j <;> simp [validateAiReply]

theorem chat_endpoint_ok_of_pair
    (gen : String → List (String × String) → Except String String)
    (freshId : String) (modelSet : Bool) (targetModelName : String)
    (conv : Store) (req : ChatRequest) (a : String) (g : Option String)
    (ha : (chatCore gen freshId modelSet targetModelName conv req).aiReply = Json.str a)
    (hg : validateGc (chatCore gen freshId modelSet targetModelName conv req).gc = some g) :
    (chat_endpoint gen freshId modelSet targetModelName conv req).2 =
      Except.ok ⟨a, g, pyOrStr req.session_id freshId⟩ := by
  simp only [chat_endpoint, ha, hg, validateAiReply]
  rfl

theorem chat_endpoint_store_eq
    (gen : String → List (String × String) → Except String String)
    (freshId : String) (modelSet : Bool) (targetModelName : String)
    (conv : Store) (req : ChatRequest) :
    (chat_endpoint gen freshId modelSet targetModelName conv req).1 =
      (chatCore gen freshId modelSet targetModelName conv req).store := by
  rcases hva : validateAiReply (chatCore gen freshId modelSet targetModelName conv req).aiReply
    with _ | a <;>
    rcases hvg : validateGc (chatCore gen freshId modelSet targetModelName conv req).gc
      with _ | g <;>
    simp [chat_endpoint, hva, hvg]

theorem chat_endpoint_sid_of_ok
    (gen : String → List (String × String) → Except String String)
    (freshId : String) (modelSet : Bool) (targetModelName : String)
    (conv : Store) (req : ChatRequest) (resp : ChatResponse)
    (h : (chat_endpoint gen freshId modelSet targetModelName conv req).2 = Except.ok resp) :
    resp.session_id = pyOrStr req.session_id freshId := by
  simp only [chat_endpoint] at h
  rcases hva : validateAiReply (chatCore gen freshId modelSet targetModelName conv req).aiReply
    with _ | a
  · rw [hva] at h
    simp at h
  · rcases hvg : validateGc (chatCore gen freshId modelSet targetModelName conv req).gc
      with _ | g
    · rw [hva, hvg] at h
      simp at h
    · rw [hva, hvg] at h
      simp only [Except.ok.injEq] at h
      subst h
      rfl

theorem errorReplyText_ne_empty (e : String) : errorReplyText e ≠ "" := by
  intro h
  have hl := congrArg String.length h
  rw [errorReplyText, String.length_append] at hl
  have h1 : 0 < ("I\x27m having trouble connecting to my brain right now. Error details: " : String).length := by decide
  have h2 : ("" : String).length = 0 := rfl
  omega

theorem errorReplyText_contains_err (e : String) :
    e.data <:+: (errorReplyText e).data := by
  refine ⟨("I\x27m having trouble connecting to my brain right now. Error details: " : String).data, [], ?_⟩
  simp [errorReplyText, String.data_append]

theorem substr_middle (pre mid post : String) :
    mid.data <:+: (pre ++ mid ++ post).data :=
  ⟨pre.data, post.data, by simp [String.data_append]⟩

theorem find?_eq_of_split (p : α → Bool) (l1 l2 : List α) (a : α)
    (h1 : ∀ x ∈ l1, p x = false) (h2 : p a = true) :
    (l1 ++ a :: l2).find? p = some a := by
  induction l1 with
  | nil => simp [List.find?_cons_of_pos _ h2]
  | cons x xs ih =>
    rw [List.cons_append, List.find?_cons_of_neg _ (by simp [h1 x (by simp)])]
    exact ih (fun y hy => h1 y (by simp [hy]))

theorem pyOrStr_ne_of_mode (o : Option String) (hmode : o ≠ some "interview") :
    pyOrStr o "chat" ≠ "interview" := by
  rcases o with _ | s
  · simp [pyOrStr]
  · simp only [pyOrStr]
    split
    · simp
    · intro h
      exact hmode (by rw [h])

/-! ## Claim theorems -/

/-- C1: for every session id and every sequence of requests to the `/chat`
endpoint using that session id, the stored history never exceeds 20 entries,
and is exactly the 20 most recent appended turns in their original relative
order: folding `manage_history` over any message sequence yields exactly the
suffix of the 20 most recent messages, and after any run of requests the
store holds the last 20 entries of the full chronological turn log. -/
theorem history_bounded_to_last_20 :
    (∀ (msgs : List Msg),
      List.foldl manage_history [] msgs = msgs.drop (msgs.length - 20) ∧
      (List.foldl manage_history [] msgs).length ≤ 20) ∧
    ∀ (modelSet : Bool) (targetModelName : String) (steps : List Step) (sid : String),
      (runChatsLog modelSet targetModelName steps emptyStore emptyStore).1 sid =
        lastN 20 ((runChatsLog modelSet targetModelName steps emptyStore emptyStore).2 sid) ∧
      ((runChatsLog modelSet targetModelName steps emptyStore emptyStore).1 sid).length ≤ 20 := by
  constructor
  · intro msgs
    refine ⟨foldl_manage_history_eq_lastN msgs, ?_⟩
    rw [foldl_manage_history_eq_lastN]
    exact lastN_length_le _ _
  · intro modelSet targetModelName steps sid
    have h := runChatsLog_invariant modelSet targetModelName steps emptyStore emptyStore
      (fun _ => rfl) sid
    refine ⟨h, ?_⟩
    rw [h]
    exact lastN_length_le _ _

/-- C9: every request to `/chat` updates the resolved session's history by
exactly two `manage_history` appends, the user turn first and then the model
turn, in every branch; other sessions are untouched, the model turn is always
the last recorded entry, and whenever the endpoint returns a success response
the recorded model turn carries exactly the returned `ai_reply` text. -/
theorem chat_appends_user_then_model
    (gen : String → List (String × String) → Except String String)
    (freshId : String) (modelSet : Bool) (targetModelName : String)
    (conv : Store) (req : ChatRequest) :
    (chatCore gen freshId modelSet targetModelName conv req).store =
      manageHistoryStore
        (manageHistoryStore conv (chatCore gen freshId modelSet targetModelName conv req).sid
          ⟨"user", Json.str req.user_message⟩)
        (chatCore gen freshId modelSet targetModelName conv req).sid
        ⟨"model", (chatCore gen freshId modelSet targetModelName conv req).aiReply⟩ ∧
    (∀ k, k ≠ (chatCore gen freshId modelSet targetModelName conv req).sid →
      (chatCore gen freshId modelSet targetModelName conv req).store k = conv k) ∧
    ((chatCore gen freshId modelSet targetModelName conv req).store
      (chatCore gen freshId modelSet targetModelName conv req).sid).getLast? =
      some ⟨"model", (chatCore gen freshId modelSet targetModelName conv req).aiReply⟩ ∧
    (chat_endpoint gen freshId modelSet targetModelName conv req).1 =
      (chatCore gen freshId modelSet targetModelName conv req).store ∧
    ∀ resp, (chat_endpoint gen freshId modelSet targetModelName conv req).2 = Except.ok resp →
      (chatCore gen freshId modelSet targetModelName conv req).aiReply = Json.str resp.ai_reply := by
  refine ⟨chatCore_store gen freshId modelSet targetModelName conv req, ?_, ?_, ?_, ?_⟩
  · intro k hk
    rw [chatCore_store]
    rw [manageHistoryStore_other _ _ _ _ hk, manageHistoryStore_other _ _ _ _ hk]
  · rw [chatCore_store, manageHistoryStore_same]
    exact manage_history_getLast _ _
  · simp only [chat_endpoint]
    rcases hva : validateAiReply (chatCore gen freshId modelSet targetModelName conv req).aiReply
      with _ | a
    · rfl
    · rcases hvg : validateGc (chatCore gen freshId modelSet targetModelName conv req).gc
        with _ | g
      · rfl
      · rfl
  · intro resp hresp
    simp only [chat_endpoint] at hresp
    rcases hva : validateAiReply (chatCore gen freshId modelSet targetModelName conv req).aiReply
      with _ | a
    · rw [hva] at hresp
      simp at hresp
    · rcases hvg : validateGc (chatCore gen freshId modelSet targetModelName conv req).gc
        with _ | g
      · rw [hva, hvg] at hresp
        simp at hresp
      · rw [hva, hvg] at hresp
        simp only [Except.ok.injEq] at hresp
        subst hresp
        rcases hj : (chatCore gen freshId modelSet targetModelName conv req).aiReply with
          _ | b | n | s | xs | ms
        all_goals rw [hj] at hva
        all_goals simp [validateAiReply] at hva
        subst hva
        rfl

/-- Witness for C9 at a concrete mock-mode request: the recorded model turn is
exactly the returned mock reply text. -/
theorem chat_appends_user_then_model_witness :
    (chatCore (fun _ _ => Except.error "x") "f" false "t" emptyStore
      ⟨"hi", some "chat", some "s"⟩).aiReply =
      Json.str "[CHAT MODE] I heard you say: \x27hi\x27. (MockAI Mode)" := by
  have h := (chat_appends_user_then_model (fun _ _ => Except.error "x") "f" false "t" emptyStore
    ⟨"hi", some "chat", some "s"⟩).2.2.2.2
    ⟨"[CHAT MODE] I heard you say: \x27hi\x27. (MockAI Mode)", none, "s"⟩ (by rfl)
  exact h

/-- C3: whenever the provider call throws, or the provider text fails to parse
as JSON, the endpoint still returns a success (HTTP 200) response whose
`ai_reply` is a non-empty string containing the underlying error description
with `grammar_correction` null, and the session history records a model turn
with that same error text; the error is never an HTTP error status. -/
theorem provider_failure_still_success
    (gen : String → List (String × String) → Except String String)
    (freshId targetModelName : String) (conv : Store) (req : ChatRequest) (e : String)
    (hfail : (∀ p c, gen p c = Except.error e) ∨
      ∃ raw, (∀ p c, gen p c = Except.ok raw) ∧
        jsonLoads (extractText raw) = Except.error e) :
    (chat_endpoint gen freshId true targetModelName conv req).2 =
      Except.ok ⟨errorReplyText e, none, pyOrStr req.session_id freshId⟩ ∧
    errorReplyText e ≠ "" ∧
    e.data <:+: (errorReplyText e).data ∧
    ((chat_endpoint gen freshId true targetModelName conv req).1
      (pyOrStr req.session_id freshId)).getLast? =
      some ⟨"model", Json.str (errorReplyText e)⟩ := by
  have hpair : (chatCore gen freshId true targetModelName conv req).aiReply =
      Json.str (errorReplyText e) ∧
      (chatCore gen freshId true targetModelName conv req).gc = Json.null := by
    have hp := chatCore_pair_provider gen freshId targetModelName conv req
    rcases hfail with h | ⟨raw, hok, hparse⟩
    · rw [providerReply_of_gen_error _ _ _ _ e h] at hp
      exact ⟨congrArg Prod.fst hp, congrArg Prod.snd hp⟩
    · rw [providerReply_of_gen_ok _ _ _ _ raw hok,
        readProviderText_of_parse_error raw e hparse] at hp
      exact ⟨congrArg Prod.fst hp, congrArg Prod.snd hp⟩
  refine ⟨?_, errorReplyText_ne_empty e, errorReplyText_contains_err e, ?_⟩
  · exact chat_endpoint_ok_of_pair _ _ _ _ _ _ _ none hpair.1 (by rw [hpair.2]; rfl)
  · rw [chat_endpoint_store_eq, chatCore_store, chatCore_sid, manageHistoryStore_same,
      manage_history_getLast, hpair.1]

/-- Witness for C3 with a concrete throwing provider. -/
theorem provider_failure_still_success_witness :
    (chat_endpoint (fun _ _ => Except.error "boom") "f" true "t" emptyStore
      ⟨"hi", some "chat", some "s1"⟩).2 =
      Except.ok ⟨errorReplyText "boom", none, "s1"⟩ ∧
    errorReplyText "boom" ≠ "" ∧
    "boom".data <:+: (errorReplyText "boom").data ∧
    ((chat_endpoint (fun _ _ => Except.error "boom") "f" true "t" emptyStore
      ⟨"hi", some "chat", some "s1"⟩).1 "s1").getLast? =
      some ⟨"model", Json.str (errorReplyText "boom")⟩ := by
  have h := provider_failure_still_success (fun _ _ => Except.error "boom") "f" "t" emptyStore
    ⟨"hi", some "chat", some "s1"⟩ "boom" (Or.inl fun _ _ => rfl)
  exact h

/-- C4: with no credential configured (provider handle unset), every request
returns a deterministic placeholder reply that contains the mode name
uppercased and the echoed user message, with `grammar_correction` null for
mode "chat" and non-null exactly for mode "interview"; the response is a
success, not an error. -/
theorem mock_mode_reply
    (gen : String → List (String × String) → Except String String)
    (freshId targetModelName : String) (conv : Store) (req : ChatRequest) :
    (chat_endpoint gen freshId false targetModelName conv req).2 =
      Except.ok ⟨"[" ++ pyUpper (pyOrStr req.mode "chat") ++ " MODE] I heard you say: \x27" ++
          req.user_message ++ "\x27. (MockAI Mode)",
        if pyOrStr req.mode "chat" = "interview" then some "Mock feedback: Good effort!" else none,
        pyOrStr req.session_id freshId⟩ ∧
    (pyUpper (pyOrStr req.mode "chat")).data <:+:
      ("[" ++ pyUpper (pyOrStr req.mode "chat") ++ " MODE] I heard you say: \x27" ++
        req.user_message ++ "\x27. (MockAI Mode)").data ∧
    req.user_message.data <:+:
      ("[" ++ pyUpper (pyOrStr req.mode "chat") ++ " MODE] I heard you say: \x27" ++
        req.user_message ++ "\x27. (MockAI Mode)").data := by
  have hp := chatCore_pair_mock gen freshId targetModelName conv req
  have ha : (chatCore gen freshId false targetModelName conv req).aiReply =
      Json.str ("[" ++ pyUpper (pyOrStr req.mode "chat") ++ " MODE] I heard you say: \x27" ++
        req.user_message ++ "\x27. (MockAI Mode)") := congrArg Prod.fst hp
  have hgc : (chatCore gen freshId false targetModelName conv req).gc =
      (if pyOrStr req.mode "chat" = "interview" then Json.str "Mock feedback: Good effort!"
       else Json.null) := congrArg Prod.snd hp
  refine ⟨?_, ?_, ?_⟩
  · apply chat_endpoint_ok_of_pair _ _ _ _ _ _ _ _ ha
    rw [hgc]
    by_cases hm : pyOrStr req.mode "chat" = "interview" <;> simp [hm, validateGc]
  · exact ⟨"[".data,
      (" MODE] I heard you say: \x27" ++ req.user_message ++ "\x27. (MockAI Mode)").data,
      by simp [String.data_append]⟩
  · exact ⟨("[" ++ pyUpper (pyOrStr req.mode "chat") ++ " MODE] I heard you say: \x27").data,
      ("\x27. (MockAI Mode)").data, by simp [String.data_append]⟩

/-- C10: any mode other than exactly "interview" (including arbitrary strings
outside the documented enum) is accepted and handled as chat mode: the chat
prompt template is selected, the mock reply embeds the supplied mode
uppercased with `grammar_correction` null, and a null mode defaults to
"chat". -/
theorem arbitrary_mode_handled_as_chat
    (gen : String → List (String × String) → Except String String)
    (freshId targetModelName : String) (conv : Store) (req : ChatRequest)
    (hmode : req.mode ≠ some "interview") :
    selectPrompt (pyOrStr req.mode "chat") = CHAT_PROMPT ∧
    (req.mode = none → pyOrStr req.mode "chat" = "chat") ∧
    (chat_endpoint gen freshId false targetModelName conv req).2 =
      Except.ok ⟨"[" ++ pyUpper (pyOrStr req.mode "chat") ++ " MODE] I heard you say: \x27" ++
          req.user_message ++ "\x27. (MockAI Mode)", none, pyOrStr req.session_id freshId⟩ ∧
    ∀ s, req.mode = some s →
      (pyUpper s).data <:+:
        ("[" ++ pyUpper (pyOrStr req.mode "chat") ++ " MODE] I heard you say: \x27" ++
          req.user_message ++ "\x27. (MockAI Mode)").data := by
  have hne := pyOrStr_ne_of_mode req.mode hmode
  refine ⟨by simp [selectPrompt, hne], ?_, ?_, ?_⟩
  · intro h
    rw [h]
    rfl
  · have hp := chatCore_pair_mock gen freshId targetModelName conv req
    have ha : (chatCore gen freshId false targetModelName conv req).aiReply =
        Json.str ("[" ++ pyUpper (pyOrStr req.mode "chat") ++ " MODE] I heard you say: \x27" ++
          req.user_message ++ "\x27. (MockAI Mode)") := congrArg Prod.fst hp
    have hgc : (chatCore gen freshId false targetModelName conv req).gc = Json.null := by
      have h2 : (chatCore gen freshId false targetModelName conv req).gc =
          (if pyOrStr req.mode "chat" = "interview" then Json.str "Mock feedback: Good effort!"
           else Json.null) := congrArg Prod.snd hp
      rw [h2, if_neg hne]
    exact chat_endpoint_ok_of_pair _ _ _ _ _ _ _ none ha (by rw [hgc]; rfl)
  · intro s hs
    by_cases hempty : s = ""
    · subst hempty
      exact ⟨[], ("[" ++ pyUpper (pyOrStr req.mode "chat") ++ " MODE] I heard you say: \x27" ++
        req.user_message ++ "\x27. (MockAI Mode)").data, by simp [pyUpper]⟩
    · have hres : pyOrStr req.mode "chat" = s := by
        rw [hs]
        simp [pyOrStr, hempty]
      rw [hres]
      exact ⟨"[".data,
        (" MODE] I heard you say: \x27" ++ req.user_message ++ "\x27. (MockAI Mode)").data,
        by simp [String.data_append]⟩

/-- Witness for C10 at a concrete out-of-enum mode value. -/
theorem arbitrary_mode_handled_as_chat_witness :
    selectPrompt (pyOrStr (some "banter") "chat") = CHAT_PROMPT ∧
    (chat_endpoint (fun _ _ => Except.error "x") "f" false "t" emptyStore
      ⟨"yo", some "banter", none⟩).2 =
      Except.ok ⟨"[BANTER MODE] I heard you say: \x27yo\x27. (MockAI Mode)", none, "f"⟩ := by
  have h := arbitrary_mode_handled_as_chat (fun _ _ => Except.error "x") "f" "t" emptyStore
    ⟨"yo", some "banter", none⟩ (by decide)
  exact ⟨h.1, h.2.2.1⟩

/-- C2: the json-labelled fence and the plain unfenced JSON examples behave as
specified, but for a response wrapped in an ordinary closed triple-backtick
fence the extraction keeps the text after the final fence delimiter — the
empty string — so the parse fails and the endpoint answers with the error
reply instead of the embedded fields: the fence-stripping slip
(`split("```")[-1]` grabs what follows the closing fence). -/
theorem fence_extraction_behaviour :
    extractText "```json\n\x7b\"ai_reply\":\"hi\",\"grammar_correction\":null\x7d\n```" =
      "\x7b\"ai_reply\":\"hi\",\"grammar_correction\":null\x7d" ∧
    (chat_endpoint
      (fun _ _ => Except.ok "```json\n\x7b\"ai_reply\":\"hi\",\"grammar_correction\":null\x7d\n```")
      "f" true "t" emptyStore ⟨"hi", some "chat", some "s"⟩).2 =
      Except.ok ⟨"hi", none, "s"⟩ ∧
    (chat_endpoint
      (fun _ _ => Except.ok "\x7b\"ai_reply\":\"ok\",\"grammar_correction\":\"fix x\"\x7d")
      "f" true "t" emptyStore ⟨"hi", some "chat", some "s"⟩).2 =
      Except.ok ⟨"ok", some "fix x", "s"⟩ ∧
    extractText "```\n\x7b\"ai_reply\":\"hi\",\"grammar_correction\":null\x7d\n```" = "" ∧
    jsonLoads "" = Except.error "Expecting value" ∧
    (chat_endpoint
      (fun _ _ => Except.ok "```\n\x7b\"ai_reply\":\"hi\",\"grammar_correction\":null\x7d\n```")
      "f" true "t" emptyStore ⟨"hi", some "chat", some "s"⟩).2 =
      Except.ok ⟨errorReplyText "Expecting value", none, "s"⟩ := by
  exact ⟨rfl, rfl, rfl, rfl, rfl, rfl⟩

/-- C5: the bootstrap picks the first available candidate of the hardcoded
priority list; with no candidate available it falls back to the first
enumerated model containing the gemma instruction-tuned fragments, else the
first enumerated model, else the hardcoded default identifier; and a failed
enumeration leaves the provider handle unset. -/
theorem model_selection_bootstrap (available : List String) (e : String) :
    (∀ (l1 l2 : List String) (p : String), priority_models = l1 ++ p :: l2 →
      (∀ q ∈ l1, available.contains q = false) → available.contains p = true →
      selectTargetModel available = p) ∧
    ((∀ q ∈ priority_models, available.contains q = false) →
      ∀ (m1 m2 : List String) (m : String), available = m1 ++ m :: m2 →
      (∀ x ∈ m1, gemmaItFallback x = false) → gemmaItFallback m = true →
      selectTargetModel available = m) ∧
    ((∀ q ∈ priority_models, available.contains q = false) →
      (∀ x ∈ available, gemmaItFallback x = false) →
      ∀ (a : String) (rest : List String), available = a :: rest →
      selectTargetModel available = a) ∧
    selectTargetModel [] = "models/gemini-1.5-flash" ∧
    bootstrapModel (Except.error e) = none := by
  refine ⟨?_, ?_, ?_, rfl, rfl⟩
  · intro l1 l2 p hsplit h1 h2
    unfold selectTargetModel
    rw [hsplit, find?_eq_of_split _ l1 l2 p h1 h2]
  · intro hnone m1 m2 m hsplit h1 h2
    unfold selectTargetModel
    have hp : priority_models.find? (fun p => available.contains p) = none := by
      rw [List.find?_eq_none]
      intro q hq hmem
      rw [hnone q hq] at hmem
      exact Bool.noConfusion hmem
    rw [hp, hsplit, find?_eq_of_split _ m1 m2 m h1 h2]
  · intro hnone hgem a rest hsplit
    unfold selectTargetModel
    have hp : priority_models.find? (fun p => available.contains p) = none := by
      rw [List.find?_eq_none]
      intro q hq hmem
      rw [hnone q hq] at hmem
      exact Bool.noConfusion hmem
    have hg : available.find? gemmaItFallback = none := by
      rw [List.find?_eq_none]
      intro x hx
      simp [hgem x hx]
    rw [hp, hg, hsplit]

/-- Witness for C5: a priority candidate beats a syntactically gemma-like
model listed earlier, and a failed enumeration yields no handle. -/
theorem model_selection_bootstrap_witness :
    selectTargetModel ["models/other-gemma-9b-it", "models/gemma-3-4b-it"] =
      "models/gemma-3-4b-it" ∧
    bootstrapModel (Except.error "boom") = none := by
  refine ⟨?_, (model_selection_bootstrap [] "boom").2.2.2.2⟩
  exact (model_selection_bootstrap ["models/other-gemma-9b-it", "models/gemma-3-4b-it"]
      "boom").1
    ["models/gemma-3-27b-it", "models/gemma-3-12b-it"]
    ["models/gemini-2.0-flash", "models/gemini-flash-latest"]
    "models/gemma-3-4b-it" rfl (by decide) (by decide)

/-- C7: the generation config carries the JSON response mime-type hint if and
only if the selected model identifier contains "gemini" case-insensitively;
for every other model the config omits the hint entirely. -/
theorem json_hint_only_for_gemini (targetModelName : String) :
    (("response_mime_type", "application/json") ∈ gen_config targetModelName ↔
      "gemini".data <:+: (pyLower targetModelName).data) ∧
    (¬ "gemini".data <:+: (pyLower targetModelName).data →
      gen_config targetModelName = []) := by
  unfold gen_config containsSub
  by_cases h : "gemini".data <:+: (pyLower targetModelName).data
  · simp [h]
  · simp [h]

/-- Witness for C7 on a gemini-family name and a gemma name. -/
theorem json_hint_only_for_gemini_witness :
    ("response_mime_type", "application/json") ∈ gen_config "models/Gemini-2.0-flash" ∧
    gen_config "models/gemma-3-27b-it" = [] := by
  exact ⟨(json_hint_only_for_gemini "models/Gemini-2.0-flash").1.mpr (by decide),
    (json_hint_only_for_gemini "models/gemma-3-27b-it").2 (by decide)⟩

/-- C6 counterexample: a provider response that parses as JSON but is not an
object (so it has no `ai_reply` field) makes `data.get` raise, and the
endpoint answers with the error-branch reply, not the documented default;
and an object response lacking `ai_reply` whose `grammar_correction` is a
number fails response validation (HTTP 500), returning no default at all. -/
theorem json_field_defaults_counterexample :
    jsonLoads (extractText "[1, 2]") = Except.ok (Json.arr [Json.num 1, Json.num 2]) ∧
    (chat_endpoint (fun _ _ => Except.ok "[1, 2]") "f" true "t" emptyStore
      ⟨"hi", some "chat", some "s"⟩).2 =
      Except.ok ⟨errorReplyText "\x27list\x27 object has no attribute \x27get\x27", none, "s"⟩ ∧
    errorReplyText "\x27list\x27 object has no attribute \x27get\x27" ≠ defaultAiReply ∧
    jsonLoads (extractText "\x7b\"grammar_correction\": 5\x7d") =
      Except.ok (Json.obj [("grammar_correction", Json.num 5)]) ∧
    pyDictGet [("grammar_correction", Json.num 5)] "ai_reply" = none ∧
    (chat_endpoint (fun _ _ => Except.ok "\x7b\"grammar_correction\": 5\x7d") "f" true "t"
      emptyStore ⟨"hi", some "chat", some "s"⟩).2 = Except.error "ValidationError" := by
  exact ⟨rfl, rfl, by decide, rfl, rfl, rfl⟩

/-- C6 amended: for every provider response that parses as a JSON object, if
the object lacks `ai_reply` and its `grammar_correction` field (when present)
passes response validation, the endpoint returns the default
`ai_reply = "I'm sorry, I didn't catch that."`; and if the object lacks
`grammar_correction` and its `ai_reply` field (when present) is a string, the
endpoint returns `grammar_correction = null`. -/
theorem json_field_defaults_amended
    (gen : String → List (String × String) → Except String String)
    (freshId targetModelName : String) (conv : Store) (req : ChatRequest)
    (raw : String) (kvs : List (String × Json)) (g : Option String)
    (hok : ∀ p c, gen p c = Except.ok raw)
    (hparse : jsonLoads (extractText raw) = Except.ok (Json.obj kvs)) :
    (pyDictGet kvs "ai_reply" = none →
      validateGc ((pyDictGet kvs "grammar_correction").getD Json.null) = some g →
      (chat_endpoint gen freshId true targetModelName conv req).2 =
        Except.ok ⟨defaultAiReply, g, pyOrStr req.session_id freshId⟩) ∧
    (pyDictGet kvs "grammar_correction" = none →
      ∀ a, validateAiReply ((pyDictGet kvs "ai_reply").getD (Json.str defaultAiReply)) = some a →
      (chat_endpoint gen freshId true targetModelName conv req).2 =
        Except.ok ⟨a, none, pyOrStr req.session_id freshId⟩) := by
  have hp := chatCore_pair_provider gen freshId targetModelName conv req
  rw [providerReply_of_gen_ok _ _ _ _ raw hok, readProviderText_of_obj raw kvs hparse] at hp
  have ha : (chatCore gen freshId true targetModelName conv req).aiReply =
      (pyDictGet kvs "ai_reply").getD (Json.str defaultAiReply) := congrArg Prod.fst hp
  have hg2 : (chatCore gen freshId true targetModelName conv req).gc =
      (pyDictGet kvs "grammar_correction").getD Json.null := congrArg Prod.snd hp
  constructor
  · intro habs hgval
    apply chat_endpoint_ok_of_pair
    · rw [ha, habs]
      rfl
    · rw [hg2]
      exact hgval
  · intro habs a hav
    apply chat_endpoint_ok_of_pair
    · rw [ha]
      exact (validateAiReply_eq_some _ a).mp hav
    · rw [hg2, habs]
      rfl

/-- Witness for the amended C6 on the empty-object response. -/
theorem json_field_defaults_amended_witness :
    (chat_endpoint (fun _ _ => Except.ok "\x7b\x7d") "f" true "t" emptyStore
      ⟨"hi", some "chat", some "s"⟩).2 = Except.ok ⟨defaultAiReply, none, "s"⟩ := by
  exact (json_field_defaults_amended (fun _ _ => Except.ok "\x7b\x7d") "f" "t" emptyStore
    ⟨"hi", some "chat", some "s"⟩ "\x7b\x7d" [] none (fun _ _ => rfl) rfl).1 rfl rfl

/-- C8 counterexample: a request that supplies the session id `""` does not
get `""` back as its session key: the Python `or` treats the empty string as
absent and a fresh identifier is used instead. -/
theorem supplied_session_id_counterexample :
    (chat_endpoint (fun _ _ => Except.error "x") "fresh-1" false "t" emptyStore
      ⟨"hi", some "chat", some ""⟩).2 =
      Except.ok ⟨"[CHAT MODE] I heard you say: \x27hi\x27. (MockAI Mode)", none, "fresh-1"⟩ ∧
    ("fresh-1" : String) ≠ "" := ⟨rfl, by decide⟩

/-- C8 amended: every request supplying a non-empty session id has exactly
that value used as the session key and echoed in the response; an omitted or
empty session id resolves to the freshly generated identifier, and two such
requests drawing distinct fresh identifiers receive distinct session ids. -/
theorem session_id_resolution
    (gen gen2 : String → List (String × String) → Except String String)
    (freshId freshId2 targetModelName : String) (modelSet : Bool)
    (conv conv2 : Store) (req req2 : ChatRequest) :
    (∀ s, req.session_id = some s → s ≠ "" →
      (chatCore gen freshId modelSet targetModelName conv req).sid = s) ∧
    ((req.session_id = none ∨ req.session_id = some "") →
      (chatCore gen freshId modelSet targetModelName conv req).sid = freshId) ∧
    (∀ resp, (chat_endpoint gen freshId modelSet targetModelName conv req).2 = Except.ok resp →
      resp.session_id = (chatCore gen freshId modelSet targetModelName conv req).sid) ∧
    (req.session_id = none → req2.session_id = none → freshId ≠ freshId2 →
      (chatCore gen freshId modelSet targetModelName conv req).sid ≠
        (chatCore gen2 freshId2 modelSet targetModelName conv2 req2).sid) := by
  refine ⟨?_, ?_, ?_, ?_⟩
  · intro s hs hne
    rw [chatCore_sid, hs]
    simp [pyOrStr, hne]
  · intro h
    rcases h with h | h <;> rw [chatCore_sid, h] <;> rfl
  · intro resp h
    rw [chat_endpoint_sid_of_ok _ _ _ _ _ _ _ h, chatCore_sid]
  · intro h1 h2 hne
    simp only [chatCore_sid]
    rw [h1, h2]
    exact hne

/-- Witness for the amended C8 at concrete requests. -/
theorem session_id_resolution_witness :
    (chatCore (fun _ _ => Except.error "x") "f1" false "t" emptyStore
      ⟨"a", some "chat", some "s9"⟩).sid = "s9" ∧
    (chatCore (fun _ _ => Except.error "x") "f1" false "t" emptyStore
      ⟨"a", some "chat", none⟩).sid = "f1" ∧
    (chatCore (fun _ _ => Except.error "x") "f1" false "t" emptyStore
      ⟨"a", some "chat", none⟩).sid ≠
      (chatCore (fun _ _ => Except.error "y") "f2" false "t" emptyStore
        ⟨"b", some "chat", none⟩).sid := by
  refine ⟨?_, ?_, ?_⟩
  · exact (session_id_resolution (fun _ _ => Except.error "x") (fun _ _ => Except.error "y")
      "f1" "f2" "t" false emptyStore emptyStore
      ⟨"a", some "chat", some "s9"⟩ ⟨"b", some "chat", none⟩).1 "s9" rfl (by decide)
  · exact (session_id_resolution (fun _ _ => Except.error "x") (fun _ _ => Except.error "y")
      "f1" "f2" "t" false emptyStore emptyStore
      ⟨"a", some "chat", none⟩ ⟨"b", some "chat", none⟩).2.1 (Or.inl rfl)
  · exact (session_id_resolution (fun _ _ => Except.error "x") (fun _ _ => Except.error "y")
      "f1" "f2" "t" false emptyStore emptyStore
      ⟨"a", some "chat", none⟩ ⟨"b", some "chat", none⟩).2.2.2 rfl rfl (by decide)

end EnglishPartner
